import Mathlib

/-!
Verification of the course-search extraction pipeline of `src/server/server.js`
(ku-snipe-backend): a shallow embedding of the request handler
`app.post('/api/courses')` — date-text normalization, term classification,
the course resolver, the section extractor's date-range pattern, and the
handler's control flow with its `finally` cleanup — together with theorems
settling the specified properties.

Conventions of the embedding:
* JS `Date` values constructed at local midnight are represented by their
  civil day number (days since 1970-01-01).  `new Date(y, m, d)` rolls
  out-of-range month and day arguments over (ECMAScript `MakeDay`), which
  `jsMakeDate` reproduces.  Ordering of such `Date` objects by time value
  agrees with ordering of their civil day numbers (time-zone offsets are
  bounded well below one day), so date comparisons become `Int` comparisons.
* `Number(part)` is modelled on the subset of inputs the date parser meets:
  ASCII-whitespace-trimmed decimal integer numerals with an optional sign
  (empty/whitespace-only strings give 0, as in JS); other JS numeric
  syntaxes (fractions, exponents, hex, `Infinity`) are outside the model.
* Strings are handled as `List Char`; `String.split` with a literal
  separator is embedded as a structural scan with the same leftmost,
  non-overlapping semantics.
-/

namespace KuSnipe

/-! ### Civil-calendar day arithmetic (ECMAScript `MakeDay`) -/

/-- Day number of the civil date `y-m-d` (month `1..12`) relative to
1970-01-01, by the standard era decomposition into 400-year cycles. -/
def daysFromCivil (y m d : Int) : Int :=
  let y' := if m ≤ 2 then y - 1 else y
  let era := Int.fdiv y' 400
  let yoe := y' - era * 400
  let mp := Int.fmod (m + 9) 12
  let doy := Int.fdiv (153 * mp + 2) 5 + d - 1
  let doe := yoe * 365 + Int.fdiv yoe 4 - Int.fdiv yoe 100 + doy
  era * 146097 + doe - 719468

/-- `new Date(year, monthIndex, day)` at local midnight, as a civil day
number.  Out-of-range `monthIndex` rolls into the year and an out-of-range
`day` rolls into adjacent months, exactly as ECMAScript `MakeDay` does. -/
def jsMakeDate (year monthIndex day : Int) : Int :=
  let y := year + Int.fdiv monthIndex 12
  let m := Int.fmod monthIndex 12
  daysFromCivil y (m + 1) 1 + (day - 1)

/-- ECMAScript `TimeClip`: a time value is invalid (`getTime()` is `NaN`)
iff its magnitude exceeds 8.64e15 ms, i.e. 1e8 days.  `new Date(y, m, d)`
with in-range year components never comes near this bound. -/
def isInvalidTime (d : Int) : Bool :=
  decide (d < -100000000) || decide (100000000 < d)

/-! ### `Number(part)` with the handler's `isNaN(num) ? 0 : num` fallback -/

/-- Value of a nonempty all-digit numeral. -/
def digitsValAux : List Char → Int → Option Int
  | [], acc => some acc
  | c :: rest, acc =>
    if c.isDigit then digitsValAux rest (acc * 10 + ((c.toNat : Int) - 48)) else none

/-- Value of a nonempty all-digit numeral, `none` otherwise. -/
def digitsVal : List Char → Option Int
  | [] => none
  | c :: rest => digitsValAux (c :: rest) 0

/-- Drop ASCII whitespace from both ends (JS `StringToNumber` ignores
surrounding whitespace). -/
def trimWs (l : List Char) : List Char :=
  ((l.dropWhile Char.isWhitespace).reverse.dropWhile Char.isWhitespace).reverse

/-- `isNaN(Number(part)) ? 0 : Number(part)` from lines 259–261 / 271–273 of
`server.js`, on the modelled numeral subset: trimmed empty input gives 0,
a signed decimal integer numeral gives its value, anything else is `NaN`
and is coerced to 0. -/
def jsNumberOr0 (l : List Char) : Int :=
  match trimWs l with
  | [] => 0
  | '-' :: rest => ((digitsVal rest).map (fun v => -v)).getD 0
  | '+' :: rest => (digitsVal rest).getD 0
  | t => (digitsVal t).getD 0

/-! ### `String.split` on the two literal separators the handler uses -/

/-- `s.split(" - ")`: leftmost non-overlapping occurrences of the
three-character separator cut the string. -/
def splitDash : List Char → List (List Char)
  | ' ' :: '-' :: ' ' :: rest => [] :: splitDash rest
  | c :: rest =>
    match splitDash rest with
    | [] => [[c]]
    | p :: ps => (c :: p) :: ps
  | [] => [[]]

/-- `s.split("/")`. -/
def splitSlash : List Char → List (List Char)
  | '/' :: rest => [] :: splitSlash rest
  | c :: rest =>
    match splitSlash rest with
    | [] => [[c]]
    | p :: ps => (c :: p) :: ps
  | [] => [[]]

/-! ### Date Normalizer (lines 241–283 of `server.js`) -/

/-- The date-text guards and construction of lines 242–283: skip the
sentinel and empty text, require the `" - "` separator (`includes` is
modelled as the split yielding at least two pieces), require nonempty
sides, require exactly three `/`-separated parts per side, coerce each
part with `jsNumberOr0` and reject any zero component, widen two-digit
years by 2000, build both `Date`s with rollover semantics, and finally
reject only invalid time values (the `isNaN(getTime())` checks). -/
def normalizeDatesCore (l : List Char) : Option (Int × Int) :=
  if l = [] then none
  else if l = String.toList "No Date Info" then none
  else
    match splitDash l with
    | s :: e :: _ =>
      if s = [] ∨ e = [] then none
      else
        match splitSlash s, splitSlash e with
        | [sm, sd, sy], [em, ed, ey] =>
          let m1 := jsNumberOr0 sm
          let d1 := jsNumberOr0 sd
          let y1 := jsNumberOr0 sy
          if m1 = 0 ∨ d1 = 0 ∨ y1 = 0 then none
          else
            let fy1 := if y1 < 100 then 2000 + y1 else y1
            let sdate := jsMakeDate fy1 (m1 - 1) d1
            let m2 := jsNumberOr0 em
            let d2 := jsNumberOr0 ed
            let y2 := jsNumberOr0 ey
            if m2 = 0 ∨ d2 = 0 ∨ y2 = 0 then none
            else
              let fy2 := if y2 < 100 then 2000 + y2 else y2
              let edate := jsMakeDate fy2 (m2 - 1) d2
              if isInvalidTime sdate || isInvalidTime edate then none
              else some (sdate, edate)
        | _, _ => none
    | _ => none

/-! ### Section rows and term classification (lines 180–303) -/

/-- One scraped section row as produced by the `page.evaluate` of lines
180–206: all fields already carry the extractor's sentinels except
`professor`, which is absent when no office-hours element exists. -/
structure RawSectionRow where
  sectionName : String
  professor : Option String
  seats : String
  dates : String
deriving DecidableEq, Repr

/-- One classified section as pushed at lines 287–293. -/
structure ClassifiedSection where
  name : String
  professor : String
  seats : String
  startDate : Int
  endDate : Int
deriving DecidableEq, Repr

/-- The object literal of lines 287–293, with its `||` fallbacks (a JS
`||` fires on the empty string and on an absent field). -/
def mkSection (r : RawSectionRow) (s e : Int) : ClassifiedSection :=
  { name := if r.sectionName = "" then "Unknown Section" else r.sectionName
    professor :=
      match r.professor with
      | some p => if p = "" then "No Professor" else p
      | none => "No Professor"
    seats := if r.seats = "" then "No Seat Data" else r.seats
    startDate := s
    endDate := e }

/-- Fall 2024 window: `new Date(2024, 8, 1)` – `new Date(2024, 11, 20)`. -/
def fallWin24 : Int × Int := (jsMakeDate 2024 8 1, jsMakeDate 2024 11 20)

/-- Spring 2025 window: `new Date(2025, 0, 13)` – `new Date(2025, 4, 7)`. -/
def springWin25 : Int × Int := (jsMakeDate 2025 0 13, jsMakeDate 2025 4 7)

/-- Fall 2025 window: `new Date(2025, 8, 1)` – `new Date(2025, 11, 20)`. -/
def fallWin25 : Int × Int := (jsMakeDate 2025 8 1, jsMakeDate 2025 11 20)

/-- The `termConstraints` table of lines 216–238. -/
def termConstraints : List (String × (Int × Int)) :=
  [("Fall 2024", fallWin24), ("Spring 2025", springWin25), ("Fall 2025", fallWin25)]

/-- The initial `sortedCoursesAndTerms` array of lines 209–213. -/
def initialSortedTerms : List (String × List ClassifiedSection) :=
  [("Fall 2024", []), ("Spring 2025", []), ("Fall 2025", [])]

/-- One iteration of the `extractedData.forEach` of lines 241–300: a row
whose date text the normalizer rejects leaves every bucket unchanged;
otherwise the inner `termConstraints.forEach` pushes the section into
bucket `index` whenever `startDateFormat >= constraint.start &&
endDateFormat <= constraint.end`. -/
def pushRow (acc : List (String × List ClassifiedSection)) (r : RawSectionRow) :
    List (String × List ClassifiedSection) :=
  match normalizeDatesCore r.dates.toList with
  | none => acc
  | some (s, e) =>
    List.zipWith
      (fun (t : String × List ClassifiedSection) (c : String × (Int × Int)) =>
        if c.2.1 ≤ s ∧ e ≤ c.2.2 then (t.1, t.2 ++ [mkSection r s e]) else t)
      acc termConstraints

/-- The final `sortedCoursesAndTerms` value: the forEach of lines 241–300
followed by the empty-bucket filter of line 303. -/
def sortedCoursesAndTerms (rows : List RawSectionRow) :
    List (String × List ClassifiedSection) :=
  (rows.foldl pushRow initialSortedTerms).filter (fun t => decide (0 < t.2.length))

/-- Declarative description of one window's bucket: the sections of all
rows whose normalized range is fully contained in `w`, in row order. -/
def declBucket (w : Int × Int) (rows : List RawSectionRow) : List ClassifiedSection :=
  rows.filterMap (fun r =>
    match normalizeDatesCore r.dates.toList with
    | some (s, e) => if w.1 ≤ s ∧ e ≤ w.2 then some (mkSection r s e) else none
    | none => none)

/-! ### Course Resolver (the `page.evaluate` of lines 100–122)

The title is matched against `/([A-Z]+)[\s\*](\d+)/i`: the scan tries each
start position left to right; at a position the letter class is greedy and
cannot backtrack usefully (shrinking the run leaves a letter where the
separator must match), so a position matches iff it starts a maximal ASCII
letter run followed by one whitespace-or-`*` character and at least one
digit.  `\s` and the `/i` letter class are modelled on ASCII. -/

/-- The single `[\s\*]` separator character class. -/
def isSepChar (c : Char) : Bool := c.isWhitespace || c = '*'

/-- Attempt of `/([A-Z]+)[\s\*](\d+)/i` anchored at the head of `l`,
returning the two capture groups. -/
def tryCodeAt (l : List Char) : Option (List Char × List Char) :=
  let pre := l.takeWhile Char.isAlpha
  let rest := l.dropWhile Char.isAlpha
  if pre = [] then none
  else
    match rest with
    | sep :: rest2 =>
      if isSepChar sep then
        let num := rest2.takeWhile Char.isDigit
        if num = [] then none else some (pre, num)
      else none
    | [] => none

/-- `name.match(/([A-Z]+)[\s\*](\d+)/i)`: leftmost match of the course-code
pattern, as `(prefix group, number group)`. -/
def titleCodeMatch : List Char → Option (List Char × List Char)
  | [] => none
  | c :: rest =>
    match tryCodeAt (c :: rest) with
    | some r => some r
    | none => titleCodeMatch rest

/-- `searchQuery.replace(/\+/g, '').toUpperCase()` (ASCII upper-casing). -/
def cleanQuery (q : String) : List Char :=
  (q.toList.filter (fun c => c ≠ '+')).map Char.toUpper

/-- First capture of `/(<class>+)/`: the leftmost maximal run of characters
satisfying `p`.  Instantiated at `Char.isAlpha` for `/([A-Z]+)/i` and at
`Char.isDigit` for `/(\d+)/`. -/
def firstRun (p : Char → Bool) : List Char → Option (List Char)
  | [] => none
  | c :: rest => if p c then some ((c :: rest).takeWhile p) else firstRun p rest

/-- The resolved `{ name, description }` object. -/
structure CourseRecord where
  name : String
  description : Option String
deriving DecidableEq, Repr

/-- Lines 100–122: parse the rendered title, normalize the query, and
return the record only when the title prefix equals the query's letter run
(after upper-casing both) and the title number equals the query's digit run
exactly; a failed title parse, a missing query run, or any mismatch yields
`null`.  (JS compares the groups with `!==`, so an `undefined` query run
always mismatches, which the `Option` equality reproduces.) -/
def courseDetails (searchQuery title : String) (description : Option String) :
    Option CourseRecord :=
  match titleCodeMatch title.toList with
  | none => none
  | some (pre, num) =>
    let clean := cleanQuery searchQuery
    let searchPre := firstRun Char.isAlpha clean
    let searchNum := firstRun Char.isDigit clean
    if searchPre = some (pre.map Char.toUpper) ∧ searchNum = some num then
      some ⟨title, description⟩
    else none

/-! ### Section Extractor's date-range pattern (lines 192–200)

The filter regex is
`/(\d{1,2}\/\d{1,2}\/\d{4})\s*-\s*(\d{1,2}\/\d{1,2}\/\d{4})/` applied as an
unanchored search.  The matcher below enumerates, for each component, the
set of suffixes reachable after consuming it (both lengths for `\d{1,2}`,
every prefix of the whitespace run for `\s*`), which is exactly the
backtracking search space of the pattern, so the emptiness of the final set
decides the JS `match`. -/

/-- `\d{1,2}`: suffixes after consuming one or two digits. -/
def d1or2 : List Char → List (List Char)
  | c1 :: c2 :: rest =>
    if c1.isDigit then
      if c2.isDigit then [rest, c2 :: rest] else [c2 :: rest]
    else []
  | [c1] => if c1.isDigit then [[]] else []
  | [] => []

/-- `\d{4}`: suffix after consuming exactly four digits. -/
def d4 : List Char → List (List Char)
  | a :: b :: c :: d :: rest =>
    if a.isDigit && b.isDigit && c.isDigit && d.isDigit then [rest] else []
  | _ => []

/-- A single literal character. -/
def chomp (c : Char) : List Char → List (List Char)
  | x :: rest => if x = c then [rest] else []
  | [] => []

/-- `\s*`: suffixes after consuming any prefix of the whitespace run. -/
def wsStar : List Char → List (List Char)
  | [] => [[]]
  | c :: rest => if c.isWhitespace then (c :: rest) :: wsStar rest else [c :: rest]

/-- Sequential composition of two pattern components. -/
def seqM (f g : List Char → List (List Char)) : List Char → List (List Char) :=
  fun l => (f l).flatMap g

/-- One side of the range: `\d{1,2}\/\d{1,2}\/\d{4}`. -/
def dateSide : List Char → List (List Char) :=
  seqM d1or2 (seqM (chomp '/') (seqM d1or2 (seqM (chomp '/') d4)))

/-- The full pattern: side, `\s*`, `-`, `\s*`, side. -/
def dateRangePat : List Char → List (List Char) :=
  seqM dateSide (seqM wsStar (seqM (chomp '-') (seqM wsStar dateSide)))

/-- Whether the pattern matches at the head of `l`. -/
def matchesAt (l : List Char) : Bool := !(dateRangePat l).isEmpty

/-- `text.match(...)` as a Boolean: unanchored search over all start
positions. -/
def dateRangeTest : List Char → Bool
  | [] => matchesAt []
  | c :: rest => matchesAt (c :: rest) || dateRangeTest rest

/-- Lines 192–200: `allTimes` keeps the (trimmed) timestamp span texts that
match the pattern, and `dates` is the first survivor or the sentinel. -/
def pickDates (spans : List String) : String :=
  match spans.filter (fun s => dateRangeTest s.toList) with
  | [] => "No Date Info"
  | d :: _ => d

/-! ### Handler control flow (lines 31–321)

The handler's interactions with the page are summarized by an environment
recording how each external step would turn out; the body is then a pure
function of the request and the environment.  `runBody` mirrors the `try`
block: every `return` inside it, and every throw caught by the outer
`catch`, produces a response, and the second component records whether
`page = await browser.newPage()` had already assigned the page handle.
`runHandler` appends the `finally` block of lines 316–320: its guard tests
the `browser` global, and `page.close()` on a never-assigned handle is a
`TypeError`, recorded as `cleanupFault` (the response has been sent by
then, but the handler's promise rejects). -/

/-- An HTTP response the handler produces. -/
inductive Resp where
  | err (status : Nat) (error message : String) : Resp
  | ok (course : CourseRecord) (terms : List (String × List ClassifiedSection)) : Resp
deriving DecidableEq, Repr

/-- The 404 of lines 66–69 / 79–82. -/
def noResultsResp (n : String) : Resp :=
  .err 404 "Course not found" ("No results found for course: " ++ n)

/-- The 404 of lines 125–128. -/
def noExactMatchResp (n : String) : Resp :=
  .err 404 "Course not found" ("No exact match found for course: " ++ n)

/-- The 500 of lines 312–315 (outer `catch`). -/
def internalErr : Resp :=
  .err 500 "Internal server error" "An unexpected error occurred while processing your request"

/-- Outcomes of the handler's external steps for one request: whether the
`browser` global is initialized, whether each navigation/wait/evaluate
resolves, and what the rendered page contains. -/
structure Env where
  browserUp : Bool
  newPageOk : Bool
  navOk : Bool
  searchListOk : Bool
  courseExists : Bool
  firstResultOk : Bool
  title : String
  description : Option String
  toggleFound : Bool
  buttonExists : Bool
  clickOk : Bool
  termsPanelOk : Bool
  termHeadersOk : Bool
  rows : List RawSectionRow
deriving Repr

/-- The pipeline from a successfully acquired page onward (lines 46–308). -/
def afterPage (n : String) (env : Env) : Resp :=
  if !env.navOk then .err 503 "Navigation failed" "Failed to access course search page"
  else if !env.searchListOk then noResultsResp n
  else if !env.courseExists then noResultsResp n
  else if !env.firstResultOk then internalErr
  else
    match courseDetails n env.title env.description with
    | none => noExactMatchResp n
    | some c =>
      if !env.toggleFound then .ok c []
      else if !env.buttonExists then .ok c []
      else if !env.clickOk then .ok c []
      else if !env.termsPanelOk then internalErr
      else if !env.termHeadersOk then internalErr
      else .ok c (sortedCoursesAndTerms env.rows)

/-- The `try` block (lines 33–308): response plus whether `page` was
assigned.  A missing or empty `name` is falsy and returns 400 before the
page is acquired; `browser.newPage()` throws when `browser` is undefined
or the call rejects, landing in the outer `catch` with `page` unassigned. -/
def runBody (name : Option String) (env : Env) : Resp × Bool :=
  match name with
  | none => (.err 400 "Invalid request body" "Course name is required", false)
  | some n =>
    if n = "" then (.err 400 "Invalid request body" "Course name is required", false)
    else if !(env.browserUp && env.newPageOk) then (internalErr, false)
    else (afterPage n env, true)

/-- Observable outcome of one handler run: the response, whether a page
was acquired, how many times `page.close()` ran, and whether the `finally`
block itself threw (`TypeError` on an unassigned `page`). -/
structure HandlerResult where
  resp : Resp
  pageAcquired : Bool
  closeCalls : Nat
  cleanupFault : Bool
deriving DecidableEq, Repr

/-- The whole handler: `try` body then the `finally` of lines 316–320,
whose guard is `if (browser)` — not `if (page)`. -/
def runHandler (name : Option String) (env : Env) : HandlerResult :=
  let p := runBody name env
  if env.browserUp then
    if p.2 then ⟨p.1, p.2, 1, false⟩ else ⟨p.1, p.2, 0, true⟩
  else ⟨p.1, p.2, 0, false⟩

/-- Assembly of the success payload (lines 305–308) from the resolved
course record and the extracted rows. -/
def assembleResult (c : CourseRecord) (rows : List RawSectionRow) : Resp :=
  .ok c (sortedCoursesAndTerms rows)

/-! ### Malformed date text

`badDateParts` collects the rejection conditions of the specification's
Date Normalizer contract that concern the text's shape: a missing `" - "`
separator, a side without exactly three `/`-separated parts, or a part
that `Number` coercion turns into 0 (non-numeric or literally zero). -/

/-- Shape-level rejection conditions on a date text. -/
def badDateParts (l : List Char) : Bool :=
  match splitDash l with
  | s :: e :: _ =>
    (splitSlash s).length != 3 || (splitSlash e).length != 3 ||
    (splitSlash s).any (fun p => jsNumberOr0 p == 0) ||
    (splitSlash e).any (fun p => jsNumberOr0 p == 0)
  | _ => true

/-! ### Concrete instances used by the theorems -/

/-- A row whose selected date text carries month 13 on both sides. -/
def row13 : RawSectionRow :=
  ⟨"SEC-013", some "Prof A", "5 seats", "13/15/2024 - 13/20/2024"⟩

/-- A row whose range spans the Fall 2024 / Spring 2025 boundary. -/
def boundaryRow : RawSectionRow :=
  ⟨"SEC-B", some "Prof B", "2 seats", "12/1/2024 - 1/5/2025"⟩

/-- A row whose range lies fully inside the Fall 2024 window. -/
def sampleRow : RawSectionRow :=
  ⟨"SEC-A", some "Prof C", "7 seats", "9/5/2024 - 12/10/2024"⟩

/-- A row with a zero month component on the start side. -/
def zeroRow : RawSectionRow :=
  ⟨"SEC-Z", none, "1 seat", "00/15/2025 - 05/07/2025"⟩

/-- An environment in which every external step succeeds and the first
result's rendered title is an exact match for the query `"CS*2060"`. -/
def goodEnv : Env :=
  { browserUp := true, newPageOk := true, navOk := true, searchListOk := true
    courseExists := true, firstResultOk := true
    title := "CS*2060 Intro to Programming", description := none
    toggleFound := true, buttonExists := true, clickOk := true
    termsPanelOk := true, termHeadersOk := true, rows := [sampleRow] }

/-- `goodEnv` with the sections-toggle wait timing out. -/
def toggleEnv : Env := { goodEnv with toggleFound := false }

/-! ### Helper lemmas: the classification fold, bucket by bucket -/

theorem pushRow_none (acc : List (String × List ClassifiedSection)) (r : RawSectionRow)
    (h : normalizeDatesCore r.dates.toList = none) : pushRow acc r = acc := by
  have h2 : normalizeDatesCore r.dates.data = none := h
  simp only [pushRow, String.toList, h2]

theorem foldl_pushRow_general (rows : List RawSectionRow) :
    ∀ b0 b1 b2 : List ClassifiedSection,
      rows.foldl pushRow [("Fall 2024", b0), ("Spring 2025", b1), ("Fall 2025", b2)] =
        [("Fall 2024", b0 ++ declBucket fallWin24 rows),
         ("Spring 2025", b1 ++ declBucket springWin25 rows),
         ("Fall 2025", b2 ++ declBucket fallWin25 rows)] := by
  induction rows with
  | nil => intro b0 b1 b2; simp [declBucket]
  | cons r rs ih =>
    intro b0 b1 b2
    rw [List.foldl_cons]
    cases h : normalizeDatesCore r.dates.toList with
    | none =>
      have h2 : normalizeDatesCore r.dates.data = none := h
      rw [pushRow_none _ _ h, ih]
      simp [declBucket, List.filterMap_cons, String.toList, h2]
    | some p =>
      obtain ⟨s, e⟩ := p
      have h2 : normalizeDatesCore r.dates.data = some (s, e) := h
      have hpush : pushRow [("Fall 2024", b0), ("Spring 2025", b1), ("Fall 2025", b2)] r =
          [("Fall 2024", if fallWin24.1 ≤ s ∧ e ≤ fallWin24.2 then b0 ++ [mkSection r s e] else b0),
           ("Spring 2025", if springWin25.1 ≤ s ∧ e ≤ springWin25.2 then b1 ++ [mkSection r s e] else b1),
           ("Fall 2025", if fallWin25.1 ≤ s ∧ e ≤ fallWin25.2 then b2 ++ [mkSection r s e] else b2)] := by
        simp only [pushRow, String.toList, h2, termConstraints, List.zipWith,
          List.cons.injEq, and_true]
        refine ⟨?_, ?_, ?_⟩ <;> (split <;> rfl)
      rw [hpush, ih]
      have hbucket : ∀ w : Int × Int,
          declBucket w (r :: rs) =
            (if w.1 ≤ s ∧ e ≤ w.2 then [mkSection r s e] else []) ++ declBucket w rs := by
        intro w
        simp only [declBucket, List.filterMap_cons, String.toList, h2]
        by_cases hc : w.1 ≤ s ∧ e ≤ w.2
        · rw [if_pos hc]
          simp [hc]
        · rw [if_neg hc]
          simp [hc]
      simp only [hbucket]
      simp only [List.cons.injEq, and_true, Prod.mk.injEq, true_and]
      refine ⟨?_, ?_, ?_⟩ <;> (split <;> simp)

theorem classification_eq (rows : List RawSectionRow) :
    rows.foldl pushRow initialSortedTerms =
      [("Fall 2024", declBucket fallWin24 rows),
       ("Spring 2025", declBucket springWin25 rows),
       ("Fall 2025", declBucket fallWin25 rows)] := by
  have := foldl_pushRow_general rows [] [] []
  simpa [initialSortedTerms] using this

theorem mem_declBucket (w : Int × Int) (rows : List RawSectionRow) (r : RawSectionRow)
    (s e : Int) (hr : r ∈ rows) (hn : normalizeDatesCore r.dates.toList = some (s, e)) :
    mkSection r s e ∈ declBucket w rows ↔ (w.1 ≤ s ∧ e ≤ w.2) := by
  constructor
  · intro hmem
    rw [declBucket, List.mem_filterMap] at hmem
    obtain ⟨r', _, hf⟩ := hmem
    revert hf
    cases h' : normalizeDatesCore r'.dates.toList with
    | none =>
      intro hf
      exact absurd hf (by simp)
    | some p =>
      obtain ⟨s', e'⟩ := p
      intro hf
      replace hf : (if w.1 ≤ s' ∧ e' ≤ w.2 then some (mkSection r' s' e') else none) =
          some (mkSection r s e) := hf
      by_cases hc : w.1 ≤ s' ∧ e' ≤ w.2
      · rw [if_pos hc] at hf
        have hs : s' = s := congrArg ClassifiedSection.startDate (Option.some.inj hf)
        have he : e' = e := congrArg ClassifiedSection.endDate (Option.some.inj hf)
        rw [hs, he] at hc
        exact hc
      · rw [if_neg hc] at hf
        cases hf
  · intro hc
    rw [declBucket, List.mem_filterMap]
    refine ⟨r, hr, ?_⟩
    rw [hn]
    simp [hc]

/-! ### Claim theorems -/

/-- C8: For every row list, the final `sortedCoursesAndTerms` consists of
exactly the configured terms whose buckets are non-empty, in the fixed
configured order Fall 2024, Spring 2025, Fall 2025, each term label paired
with the sections classified under that same term's window. -/
theorem sorted_terms_structure (rows : List RawSectionRow) :
    sortedCoursesAndTerms rows =
      ([("Fall 2024", declBucket fallWin24 rows),
        ("Spring 2025", declBucket springWin25 rows),
        ("Fall 2025", declBucket fallWin25 rows)]).filter
          (fun t => decide (0 < t.2.length)) := by
  rw [sortedCoursesAndTerms, classification_eq]

/-- C4: For every row with a successfully normalized date range, the
classifier records the section in the bucket of every configured window
that fully contains the range — membership in bucket `i` is equivalent to
full containment in window `i` — and a range spanning the Fall 2024 /
Spring 2025 boundary (12/01/2024 – 01/05/2025) is normalized successfully
yet placed in zero buckets. -/
theorem term_classifier_full_containment :
    (∀ (rows : List RawSectionRow) (r : RawSectionRow) (s e : Int),
        r ∈ rows → normalizeDatesCore r.dates.toList = some (s, e) →
        ∀ i : Nat, i < 3 →
          (mkSection r s e ∈ ((rows.foldl pushRow initialSortedTerms).getD i ("", [])).2 ↔
            ((termConstraints.getD i ("", (0, 0))).2.1 ≤ s ∧
              e ≤ (termConstraints.getD i ("", (0, 0))).2.2)))
    ∧ (normalizeDatesCore boundaryRow.dates.toList).isSome = true
    ∧ sortedCoursesAndTerms [boundaryRow] = [] := by
  refine ⟨?_, by decide, by decide⟩
  intro rows r s e hr hn i hi
  rw [classification_eq]
  interval_cases i <;>
    (simp only [List.getD, List.getElem?_cons_zero, List.getElem?_cons_succ,
      Option.getD_some, termConstraints]
     exact mem_declBucket _ _ _ _ _ hr hn)

/-- C4 witness: a concrete row fully inside the Fall 2024 window lands in
the first bucket. -/
theorem term_classifier_full_containment_witness :
    mkSection sampleRow (jsMakeDate 2024 8 5) (jsMakeDate 2024 11 10) ∈
      (([sampleRow].foldl pushRow initialSortedTerms).getD 0 ("", [])).2 :=
  (term_classifier_full_containment.1 [sampleRow] sampleRow
    (jsMakeDate 2024 8 5) (jsMakeDate 2024 11 10)
    (List.mem_singleton.mpr rfl) (by decide) 0 (by decide)).2 (by decide)

/-- C7: Date text lacking the `" - "` separator, or with a side not
splitting into exactly three `/`-separated parts, or with any part that
`Number` coercion sends to 0 (non-numeric or zero), is rejected by the
normalizer; a rejected row contributes to no term bucket and the remaining
rows are processed unchanged. -/
theorem malformed_dates_rejected :
    (∀ l : List Char, badDateParts l = true → normalizeDatesCore l = none)
    ∧ (∀ (r : RawSectionRow) (rows : List RawSectionRow),
        normalizeDatesCore r.dates.toList = none →
        sortedCoursesAndTerms (r :: rows) = sortedCoursesAndTerms rows) := by
  constructor
  · intro l h
    by_cases h0 : l = []
    · simp [normalizeDatesCore, h0]
    by_cases h1 : l = String.toList "No Date Info"
    · simp [normalizeDatesCore, h0, h1]
    simp only [normalizeDatesCore, if_neg h0, if_neg h1]
    simp only [badDateParts] at h
    rcases hd : splitDash l with _ | ⟨s, rest1⟩
    · rfl
    rcases rest1 with _ | ⟨e, rest⟩
    · rfl
    rw [hd] at h
    simp only [] at h ⊢
    by_cases hse : s = [] ∨ e = []
    · rw [if_pos hse]
    rw [if_neg hse]
    rcases hs : splitSlash s with _ | ⟨sm, _ | ⟨sd, _ | ⟨sy, _ | ⟨sx, sxs⟩⟩⟩⟩ <;>
      rcases he : splitSlash e with _ | ⟨em, _ | ⟨ed, _ | ⟨ey, _ | ⟨ex, exs⟩⟩⟩⟩ <;>
      try rfl
    rw [hs, he] at h
    simp only [Bool.or_eq_true, bne_iff_ne, ne_eq, List.length_cons, List.length_nil,
      List.any_eq_true, beq_iff_eq, List.mem_cons, List.not_mem_nil, or_false] at h
    simp only []
    rcases h with ((hbad | hbad) | ⟨p, hp, hz⟩) | ⟨p, hp, hz⟩
    · exact absurd trivial hbad
    · exact absurd trivial hbad
    · rcases hp with rfl | rfl | rfl
      · rw [if_pos (Or.inl hz)]
      · rw [if_pos (Or.inr (Or.inl hz))]
      · rw [if_pos (Or.inr (Or.inr hz))]
    · by_cases hz1 : jsNumberOr0 sm = 0 ∨ jsNumberOr0 sd = 0 ∨ jsNumberOr0 sy = 0
      · rw [if_pos hz1]
      rw [if_neg hz1]
      rcases hp with rfl | rfl | rfl
      · rw [if_pos (Or.inl hz)]
      · rw [if_pos (Or.inr (Or.inl hz))]
      · rw [if_pos (Or.inr (Or.inr hz))]
  · intro r rows h
    rw [sortedCoursesAndTerms, sortedCoursesAndTerms, List.foldl_cons, pushRow_none _ _ h]

/-- C7 witness: a zero month component is rejected, and the zero row drops
out of classification while the remaining rows are classified as before. -/
theorem malformed_dates_rejected_witness :
    normalizeDatesCore (String.toList "00/15/2025 - 05/07/2025") = none ∧
    sortedCoursesAndTerms [zeroRow, sampleRow] = sortedCoursesAndTerms [sampleRow] :=
  ⟨malformed_dates_rejected.1 _ (by decide),
   malformed_dates_rejected.2 zeroRow [sampleRow] (by decide)⟩

/-- C2 counterexample: the date text `13/15/2024 - 13/20/2024` names month
13 on both sides, yet the normalizer accepts it and the row lands in a term
bucket instead of being dropped. -/
theorem month13_not_rejected_cex :
    (normalizeDatesCore (String.toList "13/15/2024 - 13/20/2024")).isSome = true ∧
    (sortedCoursesAndTerms [row13]).length = 1 :=
  ⟨by decide, by decide⟩

/-- C2 amended: the normalizer's `isNaN` check rejects only non-representable
time values; an out-of-range month or day rolls over per JS `Date` semantics
(month 13 of 2024 is January 2025), and the row is classified under the
rolled-over dates. -/
theorem date_rollover_classification :
    jsMakeDate 2024 12 15 = jsMakeDate 2025 0 15 ∧
    normalizeDatesCore (String.toList "13/15/2024 - 13/20/2024") =
      some (jsMakeDate 2025 0 15, jsMakeDate 2025 0 20) ∧
    sortedCoursesAndTerms [row13] =
      [("Spring 2025", [mkSection row13 (jsMakeDate 2025 0 15) (jsMakeDate 2025 0 20)])] :=
  ⟨by decide, by decide, by decide⟩

/-- C3 counterexample: the span text `9/3/24 - 12/16/24`, a date range with
2-digit years, does not match the extractor's date-range pattern, and a row
whose only timestamp span it is falls back to the `No Date Info` sentinel. -/
theorem twodigit_year_pattern_cex :
    dateRangeTest (String.toList "9/3/24 - 12/16/24") = false ∧
    pickDates ["9/3/24 - 12/16/24"] = "No Date Info" :=
  ⟨by decide, by decide⟩

/-- C3 amended: the extractor's date-range pattern requires a 4-digit year
on each side of the sub-range it matches, so a span written with 2-digit
years throughout is not selected; whenever no timestamp span of a row
matches the pattern, the row's date field is the `No Date Info` sentinel. -/
theorem four_digit_year_pattern :
    dateRangeTest (String.toList "9/3/2024 - 12/16/2024") = true ∧
    (∀ spans : List String, (∀ s ∈ spans, dateRangeTest s.toList = false) →
      pickDates spans = "No Date Info") := by
  refine ⟨by decide, ?_⟩
  intro spans h
  simp only [pickDates]
  rw [List.filter_eq_nil_iff.mpr
    (fun a ha => by simp only [Bool.not_eq_true]; exact h a ha)]

/-- C3 witness: a row whose spans are a 2-digit-year range and a free-text
date gets the sentinel. -/
theorem four_digit_year_pattern_witness :
    pickDates ["9/3/24 - 12/16/24", "Sep 3 2024"] = "No Date Info" :=
  four_digit_year_pattern.2 _ (by decide)

/-- Equation lemma: a title on which the code pattern finds no match makes
the resolver return `null`. -/
theorem courseDetails_none (q t : String) (d : Option String)
    (hm : titleCodeMatch t.toList = none) : courseDetails q t d = none := by
  unfold courseDetails
  rw [hm]

/-- Equation lemma: with a parsed title code, the resolver reduces to the
two group comparisons. -/
theorem courseDetails_some (q t : String) (d : Option String) (pre num : List Char)
    (hm : titleCodeMatch t.toList = some (pre, num)) :
    courseDetails q t d =
      if firstRun Char.isAlpha (cleanQuery q) = some (pre.map Char.toUpper) ∧
          firstRun Char.isDigit (cleanQuery q) = some num then
        some ⟨t, d⟩
      else none := by
  unfold courseDetails
  rw [hm]

/-- C5: The resolver returns a record exactly when the title parses under
the course-code pattern, its letter prefix equals the cleaned query's
letter run after upper-casing, and its digit run equals the cleaned
query's digit run as exact strings; the "no exact match" response is
distinct from the "no results" response. -/
theorem course_resolver_exact_match :
    (∀ (q t : String) (d : Option String),
        (courseDetails q t d).isSome = true ↔
          (∃ pre num, titleCodeMatch t.toList = some (pre, num) ∧
            firstRun Char.isAlpha (cleanQuery q) = some (pre.map Char.toUpper) ∧
            firstRun Char.isDigit (cleanQuery q) = some num))
    ∧ (∀ n : String, noExactMatchResp n ≠ noResultsResp n) := by
  constructor
  · intro q t d
    cases hm : titleCodeMatch t.toList with
    | none =>
      rw [courseDetails_none q t d hm]
      simp [hm]
    | some pn =>
      obtain ⟨pre, num⟩ := pn
      rw [courseDetails_some q t d pre num hm]
      by_cases hcond : firstRun Char.isAlpha (cleanQuery q) = some (pre.map Char.toUpper) ∧
          firstRun Char.isDigit (cleanQuery q) = some num
      · rw [if_pos hcond]
        simp only [Option.isSome_some, true_iff]
        exact ⟨pre, num, rfl, hcond.1, hcond.2⟩
      · rw [if_neg hcond]
        simp only [Option.isSome_none, Bool.false_eq_true, false_iff]
        rintro ⟨pre', num', hm', h1, h2⟩
        obtain ⟨rfl, rfl⟩ := Prod.mk.inj (Option.some.inj hm')
        exact hcond ⟨h1, h2⟩
  · intro n h
    rw [noExactMatchResp, noResultsResp] at h
    injection h with h1 h2 h3
    have hlen := congrArg String.length h3
    rw [String.length_append, String.length_append] at hlen
    have h33 : ("No exact match found for course: ").length = 33 := rfl
    have h29 : ("No results found for course: ").length = 29 := rfl
    rw [h33, h29] at hlen
    omega

/-- C5 witness: the end-to-end example query resolves, and the two 404
responses differ. -/
theorem course_resolver_exact_match_witness :
    (courseDetails "CS*2060" "CS*2060 Intro to Programming" none).isSome = true ∧
    noExactMatchResp "CS*2060" ≠ noResultsResp "CS*2060" :=
  ⟨(course_resolver_exact_match.1 "CS*2060" "CS*2060 Intro to Programming" none).mpr
      ⟨String.toList "CS", String.toList "2060", by decide, by decide, by decide⟩,
   course_resolver_exact_match.2 "CS*2060"⟩

/-- Helper: the body reports the page acquired only when the `browser`
global was initialized (otherwise `browser.newPage()` throws first). -/
theorem runBody_acquired_browserUp (name : Option String) (env : Env)
    (h : (runBody name env).2 = true) : env.browserUp = true := by
  cases name with
  | none => simp [runBody] at h
  | some n =>
    by_cases hn : n = ""
    · simp [runBody, hn] at h
    · simp only [runBody, if_neg hn] at h
      cases hb : env.browserUp with
      | false => rw [hb] at h; simp at h
      | true => rfl

/-- Helper: the handler's `pageAcquired` flag is the body's. -/
theorem runHandler_pageAcquired (name : Option String) (env : Env) :
    (runHandler name env).pageAcquired = (runBody name env).2 := by
  rw [runHandler]
  cases hb : env.browserUp <;> cases hp : (runBody name env).2 <;> simp [hb, hp]

/-- C1: On every control path on which the request-scoped page has been
acquired, the `finally` block closes it exactly once and does not fault:
no path with an acquired page leaks the session. -/
theorem page_released_exactly_once (name : Option String) (env : Env)
    (h : (runHandler name env).pageAcquired = true) :
    (runHandler name env).closeCalls = 1 ∧ (runHandler name env).cleanupFault = false := by
  rw [runHandler_pageAcquired] at h
  have hb : env.browserUp = true := runBody_acquired_browserUp name env h
  simp [runHandler, hb, h]

/-- C1 witness: a fully successful run acquires the page and closes it
exactly once. -/
theorem page_released_exactly_once_witness :
    (runHandler (some "CS*2060") goodEnv).pageAcquired = true ∧
    (runHandler (some "CS*2060") goodEnv).closeCalls = 1 ∧
    (runHandler (some "CS*2060") goodEnv).cleanupFault = false :=
  ⟨by decide, page_released_exactly_once (some "CS*2060") goodEnv (by decide)⟩

/-- C6: Once the course record is resolved, an absent sections toggle or a
timed-out toggle wait yields the success response with the record and an
empty term list — not an error outcome. -/
theorem toggle_missing_empty_success (n : String) (env : Env) (c : CourseRecord)
    (hn : n ≠ "")
    (hb : env.browserUp = true) (hp : env.newPageOk = true)
    (hnav : env.navOk = true) (hs : env.searchListOk = true)
    (hc : env.courseExists = true) (hf : env.firstResultOk = true)
    (hcd : courseDetails n env.title env.description = some c)
    (ht : env.toggleFound = false ∨ env.buttonExists = false) :
    (runHandler (some n) env).resp = Resp.ok c [] := by
  have hbody : runBody (some n) env = (Resp.ok c [], true) := by
    simp only [runBody, if_neg hn, hb, hp]
    simp only [afterPage, hnav, hs, hc, hf]
    rcases ht with ht | ht
    · simp [hcd, ht]
    · cases htf : env.toggleFound <;> simp [hcd, htf, ht]
  simp [runHandler, hbody, hb]

/-- C6 witness: the all-good environment with the toggle wait timing out
returns the resolved record with an empty term list. -/
theorem toggle_missing_empty_success_witness :
    (runHandler (some "CS*2060") toggleEnv).resp =
      Resp.ok ⟨"CS*2060 Intro to Programming", none⟩ [] :=
  toggle_missing_empty_success "CS*2060" toggleEnv
    ⟨"CS*2060 Intro to Programming", none⟩
    (by decide) rfl rfl rfl rfl rfl rfl (by decide) (Or.inl rfl)

/-- C9: The extraction-and-classification pipeline is a pure function of
the extracted rows and the resolved course record: equal page content
yields an identical Result, including term grouping and section order. -/
theorem pipeline_deterministic (c c' : CourseRecord) (rows rows' : List RawSectionRow)
    (hc : c = c') (hr : rows = rows') :
    assembleResult c rows = assembleResult c' rows' := by
  rw [hc, hr]

/-- C9 witness: two runs over the same concrete rendered content agree. -/
theorem pipeline_deterministic_witness :
    assembleResult ⟨"CS*2060 Intro to Programming", none⟩ [sampleRow] =
      assembleResult ⟨"CS*2060 Intro to Programming", none⟩ [sampleRow] :=
  pipeline_deterministic _ _ _ _ rfl rfl

/-- C10: A missing or empty query name sends the 400 response, but the
`finally` block — whose guard tests the `browser` handle, not the `page`
handle — then dereferences the never-assigned `page` and faults with a
`TypeError` whenever the browser is initialized. -/
theorem missing_name_cleanup_fault :
    (runHandler none goodEnv).resp =
      Resp.err 400 "Invalid request body" "Course name is required" ∧
    (runHandler none goodEnv).cleanupFault = true ∧
    (runHandler (some "") goodEnv).resp =
      Resp.err 400 "Invalid request body" "Course name is required" ∧
    (runHandler (some "") goodEnv).cleanupFault = true :=
  ⟨rfl, rfl, rfl, rfl⟩

end KuSnipe
